import Mathlib

/-!
Verification development for the openclaw heartbeat wake scheduler
(`src/infra/heartbeat-wake.ts`) and the session event queue (whose module
is exercised by `src/infra/system-events.test.ts`).

The wake scheduler is a shallow embedding of the module-level mutable state
of `heartbeat-wake.ts` as an explicit record, with each entry point and the
timer callback translated to a pure state transformer.  The asynchronous
timer callback is split at its single `await`: `fireTimer` is the prefix of
the callback up to (and including) invoking the handler, and `completeRun`
is the continuation that inspects the handler's result (the `try`/`catch`/
`finally` block).  Other operations may interleave between the two phases,
exactly as they can in the single-threaded event loop between suspension
points.  A timer handle is modelled as `Option Nat` holding the delay the
callback closes over; `none` means no timer is outstanding.
-/

/-- Result type of a heartbeat run, from `HeartbeatRunResult` in
`heartbeat-wake.ts`: `{status: "ran"; durationMs}`, `{status: "skipped";
reason}` or `{status: "failed"; reason}`. -/
inductive HeartbeatRunResult where
  | ran (durationMs : Nat)
  | skipped (reason : String)
  | failed (reason : String)
deriving DecidableEq, Repr

/-- Module-level state of `heartbeat-wake.ts`: `handler` (presence of a
registered handler), `pendingReason`, `scheduled`, `running`, `timer`
(outstanding handle with the delay it was armed with), `retryCount`. -/
structure WakeState where
  handler : Bool
  pendingReason : Option String
  scheduled : Bool
  running : Bool
  timer : Option Nat
  retryCount : Nat
deriving DecidableEq, Repr

def DEFAULT_COALESCE_MS : Nat := 250

def DEFAULT_RETRY_MS : Nat := 1000

def MAX_RETRIES : Nat := 10

/-- Initial module state: all fields empty/false/zero. -/
def initialWakeState : WakeState :=
  { handler := false, pendingReason := none, scheduled := false,
    running := false, timer := none, retryCount := 0 }

/-- `schedule(coalesceMs)` of `heartbeat-wake.ts`, restricted to its
synchronous effect: if a timer is already armed it returns immediately,
otherwise it arms one `setTimeout` for `coalesceMs`. -/
def schedule (coalesceMs : Nat) (s : WakeState) : WakeState :=
  match s.timer with
  | some _ => s
  | none => { s with timer := some coalesceMs }

/-- Outcome of the timer callback prefix: either no handler invocation
starts, or one starts with the captured reason. -/
inductive FireOutcome where
  | noRun (s : WakeState)
  | runStarted (s : WakeState) (reason : Option String)
deriving DecidableEq, Repr

/-- State carried by a `FireOutcome`. -/
def FireOutcome.state : FireOutcome → WakeState
  | .noRun s => s
  | .runStarted s _ => s

/-- Whether the fire started a handler invocation. -/
def FireOutcome.startsRun : FireOutcome → Bool
  | .noRun _ => false
  | .runStarted _ _ => true

/-- Prefix of the `setTimeout` callback inside `schedule`, up to the point
where the handler is invoked: clear `timer` and `scheduled`; if no handler
is registered, stop; if a run is in progress, set `scheduled` and re-arm a
timer for the same `coalesceMs`; otherwise consume `pendingReason`, set
`running`, and start the invocation with the captured reason. -/
def fireTimer (coalesceMs : Nat) (s : WakeState) : FireOutcome :=
  let s1 := { s with timer := none, scheduled := false }
  if s1.handler = false then
    .noRun s1
  else if s1.running then
    .noRun (schedule coalesceMs { s1 with scheduled := true })
  else
    .runStarted { s1 with pendingReason := none, running := true } s1.pendingReason

/-- The condition `res.status === "skipped" && res.reason !== "disabled"`
guarding the transient-retry branch of the callback. -/
def isTransientSkip : HeartbeatRunResult → Bool
  | .skipped rs => rs != "disabled"
  | _ => false

/-- The retry block that appears (duplicated) in both the transient-skip
branch and the `catch` block of the callback: if the retry budget is
exhausted, warn (the `Bool` component) and reset `retryCount` to 0 without
scheduling; otherwise increment `retryCount`, restore `pendingReason` to
the captured reason (or the marker `"retry"`), and arm a retry timer. -/
def retryOrGiveUp (reason : Option String) (s : WakeState) : WakeState × Bool :=
  if MAX_RETRIES ≤ s.retryCount then
    ({ s with retryCount := 0 }, true)
  else
    (schedule DEFAULT_RETRY_MS
      { s with retryCount := s.retryCount + 1,
               pendingReason := some (reason.getD "retry") }, false)

/-- Continuation of the callback after `await active({reason})` returns:
the `try` branch on the result (`.error` is a thrown rejection caught by
`catch`), then the `finally` block: clear `running` and, if a wake request
arrived meanwhile or a re-arm was requested, arm a timer at the coalescing
delay.  The `Bool` component records whether the exhaustion warning was
logged.  `s` is the module state at the moment the `await` resumes (other
operations may have run during the invocation). -/
def completeRun (coalesceMs : Nat) (reason : Option String)
    (res : Except Unit HeartbeatRunResult) (s : WakeState) : WakeState × Bool :=
  let afterTry : WakeState × Bool :=
    match res with
    | .ok r =>
        if isTransientSkip r then retryOrGiveUp reason s
        else ({ s with retryCount := 0 }, false)
    | .error _ => retryOrGiveUp reason s
  let s2 := { afterTry.1 with running := false }
  ((if s2.pendingReason.isSome || s2.scheduled then schedule coalesceMs s2 else s2),
   afterTry.2)

/-- `setHeartbeatWakeHandler(next)`: replace the handler; if one is now
present and a reason is pending, arm the coalescing timer. -/
def setHeartbeatWakeHandler (next : Bool) (s : WakeState) : WakeState :=
  let s1 := { s with handler := next }
  if s1.handler && s1.pendingReason.isSome then schedule DEFAULT_COALESCE_MS s1
  else s1

/-- `requestHeartbeatNow(opts)`: `pendingReason = opts?.reason ??
pendingReason ?? "requested"`, then `schedule(opts?.coalesceMs ?? 250)`. -/
def requestHeartbeatNow (reason : Option String) (coalesceMs : Option Nat)
    (s : WakeState) : WakeState :=
  let s1 := { s with
    pendingReason := some ((reason.orElse fun _ => s.pendingReason).getD "requested") }
  schedule (coalesceMs.getD DEFAULT_COALESCE_MS) s1

/-- `hasHeartbeatWakeHandler()`. -/
def hasHeartbeatWakeHandler (s : WakeState) : Bool :=
  s.handler

/-- `hasPendingHeartbeatWake()`: `pendingReason !== null || Boolean(timer)
|| scheduled`. -/
def hasPendingHeartbeatWake (s : WakeState) : Bool :=
  s.pendingReason.isSome || s.timer.isSome || s.scheduled

/-- `resetHeartbeatWakeForTest()`: clear every field (an armed timer is
cleared rather than fired). -/
def resetHeartbeatWakeForTest : WakeState :=
  { handler := false, pendingReason := none, scheduled := false,
    running := false, timer := none, retryCount := 0 }

/-- One event-loop step of a sequential execution in which every handler
invocation completes before anything else runs: if a timer is armed, fire
it with the delay it was armed with; if that starts an invocation, call the
handler behaviour `h` (indexed by how many invocations happened so far) and
run the completion.  Returns the new state, the new invocation count, and
whether the exhaustion warning was logged during this step. -/
def tick (h : Nat → Option String → Except Unit HeartbeatRunResult)
    (n : Nat) (s : WakeState) : WakeState × Nat × Bool :=
  match s.timer with
  | none => (s, n, false)
  | some d =>
    match fireTimer d s with
    | .noRun s1 => (s1, n, false)
    | .runStarted s1 r =>
        let c := completeRun d r (h n r) s1
        (c.1, n + 1, c.2)

/-- Run `tick` until no timer is armed (or fuel runs out), accumulating the
invocation count `n` and the number of exhaustion warnings `w`. -/
def runLoop (h : Nat → Option String → Except Unit HeartbeatRunResult) :
    Nat → WakeState → Nat → Nat → WakeState × Nat × Nat
  | 0, s, n, w => (s, n, w)
  | fuel + 1, s, n, w =>
    if s.timer = none then (s, n, w)
    else
      let t := tick h n s
      runLoop h fuel t.1 t.2.1 (w + (if t.2.2 then 1 else 0))

/-!
Session event queue.  The module `system-events.ts` itself is not among the
given sources; only its test `system-events.test.ts` is.  The definitions
below are therefore modelled from the specification of the session event
queue (a mapping from session key to a bounded FIFO of event texts,
capacity 20 per key, oldest-drops-first overflow, blank-key rejection),
cross-checked against the behaviour the test asserts.
-/

/-- Modelled from the spec: a session key is invalid for `enqueue` when it
is blank/whitespace-only. -/
def isBlankSessionKey (sessionKey : String) : Bool :=
  sessionKey.toList.all Char.isWhitespace

/-- Modelled from the spec: the per-key capacity of the session event
queue. -/
def SYSTEM_EVENTS_CAPACITY : Nat := 20

/-- Modelled from the spec: the state of `system-events.ts` is a mapping
from session key to the ordered sequence of pending event texts (absent
keys map to the empty sequence). -/
structure SystemEventsState where
  queues : String → List String

/-- Modelled from the spec: initial/reset state — every key's sequence is
empty (`resetSystemEventsForTest`). -/
def emptySystemEvents : SystemEventsState :=
  { queues := fun _ => [] }

/-- Modelled from the spec: the argument-validation error message raised on
a blank session key; it mentions the session key (the test asserts the
thrown message matches `"sessionKey"`). -/
def blankSessionKeyMessage : String :=
  "enqueueSystemEvent: sessionKey must not be blank"

/-- Modelled from the spec: result of a successful enqueue — the new state
and, when the insertion overflowed the capacity, the overflow observation
carrying the session key. -/
structure EnqueueOutcome where
  state : SystemEventsState
  overflowWarning : Option String

/-- Modelled from the spec: `enqueueSystemEvent(text, {sessionKey})` fails
synchronously on a blank key; otherwise appends `text` to that key's
sequence, evicting the oldest entry first and emitting an overflow
observation when the sequence would exceed the capacity. -/
def enqueueSystemEvent (text : String) (sessionKey : String)
    (s : SystemEventsState) : Except String EnqueueOutcome :=
  if isBlankSessionKey sessionKey then
    .error blankSessionKeyMessage
  else
    let q := s.queues sessionKey
    if SYSTEM_EVENTS_CAPACITY ≤ q.length then
      .ok { state := { queues := fun k => if k = sessionKey then q.drop 1 ++ [text] else s.queues k },
            overflowWarning := some sessionKey }
    else
      .ok { state := { queues := fun k => if k = sessionKey then q ++ [text] else s.queues k },
            overflowWarning := none }

/-- The state after an enqueue: the new state on success, the old state
unchanged when the enqueue failed. -/
def enqueueState (text : String) (sessionKey : String)
    (s : SystemEventsState) : SystemEventsState :=
  match enqueueSystemEvent text sessionKey s with
  | .ok r => r.state
  | .error _ => s

/-- Modelled from the spec: `peekSystemEvents(sessionKey)` returns the
current ordered sequence for that key without consuming it. -/
def peekSystemEvents (sessionKey : String) (s : SystemEventsState) : List String :=
  s.queues sessionKey

/-- Modelled from the spec: the drain-and-prefix consumer atomically
removes and returns all queued events for the key in arrival order,
leaving the key's sequence empty. -/
def drainSystemEvents (sessionKey : String) (s : SystemEventsState) :
    List String × SystemEventsState :=
  (s.queues sessionKey,
   { queues := fun k => if k = sessionKey then [] else s.queues k })

/-- Enqueue a list of texts under one key in order, collecting the session
keys carried by the overflow observations emitted along the way. -/
def enqueueAll (sessionKey : String) (texts : List String)
    (s : SystemEventsState) : Except String (SystemEventsState × List String) :=
  match texts with
  | [] => .ok (s, [])
  | t :: rest =>
    match enqueueSystemEvent t sessionKey s with
    | .error e => .error e
    | .ok r =>
      match enqueueAll sessionKey rest r.state with
      | .error e => .error e
      | .ok (s2, ws) => .ok (s2, r.overflowWarning.toList ++ ws)

/-- A burst of `requestHeartbeatNow` calls applied in order (each element
carries the optional reason and the optional coalesce override). -/
def applyRequests (reqs : List (Option String × Option Nat)) (s : WakeState) :
    WakeState :=
  reqs.foldl (fun st r => requestHeartbeatNow r.1 r.2 st) s

/-- Handler behaviour that always resolves to
`{status: "skipped", reason: "requests-in-flight"}`, as in the
`stops after MAX_RETRIES (10)` test. -/
def alwaysSkipBusy : Nat → Option String → Except Unit HeartbeatRunResult :=
  fun _ _ => .ok (.skipped "requests-in-flight")

/-! Helper lemmas. -/

@[simp]
theorem schedule_handler (d : Nat) (s : WakeState) :
    (schedule d s).handler = s.handler := by
  cases h : s.timer <;> simp [schedule, h]

@[simp]
theorem schedule_pendingReason (d : Nat) (s : WakeState) :
    (schedule d s).pendingReason = s.pendingReason := by
  cases h : s.timer <;> simp [schedule, h]

@[simp]
theorem schedule_scheduled (d : Nat) (s : WakeState) :
    (schedule d s).scheduled = s.scheduled := by
  cases h : s.timer <;> simp [schedule, h]

@[simp]
theorem schedule_running (d : Nat) (s : WakeState) :
    (schedule d s).running = s.running := by
  cases h : s.timer <;> simp [schedule, h]

@[simp]
theorem schedule_retryCount (d : Nat) (s : WakeState) :
    (schedule d s).retryCount = s.retryCount := by
  cases h : s.timer <;> simp [schedule, h]

theorem schedule_of_timer_some (d : Nat) (s : WakeState) (h : s.timer ≠ none) :
    schedule d s = s := by
  cases ht : s.timer with
  | none => exact absurd ht h
  | some t => simp [schedule, ht]

theorem requestHeartbeatNow_of_timer_some (r : Option String) (c : Option Nat)
    (s : WakeState) (h : s.timer ≠ none) :
    requestHeartbeatNow r c s =
      { s with
        pendingReason := some ((r.orElse (fun _ => s.pendingReason)).getD "requested") } := by
  cases ht : s.timer with
  | none => exact absurd ht h
  | some t => simp [requestHeartbeatNow, schedule, ht]

theorem fireTimer_retryCount (d : Nat) (s : WakeState) :
    (fireTimer d s).state.retryCount = s.retryCount := by
  simp only [fireTimer]
  split
  · rfl
  · split
    · simp [FireOutcome.state]
    · rfl

theorem retryOrGiveUp_retryCount_le (r : Option String) (s : WakeState) :
    (retryOrGiveUp r s).1.retryCount ≤ MAX_RETRIES := by
  unfold retryOrGiveUp
  split
  · simp
  · rename_i hlt
    simp only [schedule_retryCount]
    omega

theorem completeRun_retryCount_le (cms : Nat) (r : Option String)
    (res : Except Unit HeartbeatRunResult) (s : WakeState)
    (_h : s.retryCount ≤ MAX_RETRIES) :
    (completeRun cms r res s).1.retryCount ≤ MAX_RETRIES := by
  unfold completeRun
  have key : ∀ t : WakeState × Bool, t.1.retryCount ≤ MAX_RETRIES →
      ((if ({ t.1 with running := false } : WakeState).pendingReason.isSome ||
           ({ t.1 with running := false } : WakeState).scheduled then
          schedule cms { t.1 with running := false }
        else { t.1 with running := false }), t.2).1.retryCount ≤ MAX_RETRIES := by
    intro t ht
    dsimp only
    split
    · simpa using ht
    · simpa using ht
  cases res with
  | ok v =>
    dsimp only
    split
    · exact key _ (retryOrGiveUp_retryCount_le r s)
    · exact key ({ s with retryCount := 0 }, false) (Nat.zero_le MAX_RETRIES)
  | error e =>
    exact key _ (retryOrGiveUp_retryCount_le r s)

theorem tick_retry (h : Nat → Option String → Except Unit HeartbeatRunResult)
    (n d k : Nat) (p rs : String) (hk : k < MAX_RETRIES)
    (hres : h n (some p) = .ok (.skipped rs)) (hrs : rs ≠ "disabled") :
    tick h n { handler := true, pendingReason := some p, scheduled := false,
               running := false, timer := some d, retryCount := k } =
      ({ handler := true, pendingReason := some p, scheduled := false,
         running := false, timer := some DEFAULT_RETRY_MS, retryCount := k + 1 },
       n + 1, false) := by
  have hnle : ¬ MAX_RETRIES ≤ k := by omega
  simp [tick, fireTimer, hres, completeRun, isTransientSkip, retryOrGiveUp,
    schedule, hrs, hnle]

theorem tick_exhaust (h : Nat → Option String → Except Unit HeartbeatRunResult)
    (n d : Nat) (p rs : String)
    (hres : h n (some p) = .ok (.skipped rs)) (hrs : rs ≠ "disabled") :
    tick h n { handler := true, pendingReason := some p, scheduled := false,
               running := false, timer := some d, retryCount := MAX_RETRIES } =
      ({ handler := true, pendingReason := none, scheduled := false,
         running := false, timer := none, retryCount := 0 },
       n + 1, true) := by
  simp [tick, fireTimer, hres, completeRun, isTransientSkip, retryOrGiveUp,
    schedule, hrs]

theorem runLoop_no_timer (h : Nat → Option String → Except Unit HeartbeatRunResult)
    (fuel n w : Nat) (s : WakeState) (ht : s.timer = none) :
    runLoop h fuel s n w = (s, n, w) := by
  cases fuel with
  | zero => rfl
  | succ fuel => simp [runLoop, ht]

theorem runLoop_skip_all (h : Nat → Option String → Except Unit HeartbeatRunResult)
    (hh : ∀ n r, ∃ rs, h n r = .ok (.skipped rs) ∧ rs ≠ "disabled") :
    ∀ fuel k d n w, k ≤ MAX_RETRIES → 12 ≤ fuel + k → ∀ p : String,
    runLoop h fuel { handler := true, pendingReason := some p, scheduled := false,
                     running := false, timer := some d, retryCount := k } n w =
      ({ handler := true, pendingReason := none, scheduled := false,
         running := false, timer := none, retryCount := 0 },
       n + (11 - k), w + 1) := by
  have h10 : MAX_RETRIES = 10 := rfl
  intro fuel
  induction fuel with
  | zero => intro k d n w hk hf p; omega
  | succ fuel ih =>
    intro k d n w hk hf p
    obtain ⟨rs, hres, hrs⟩ := hh n (some p)
    by_cases hcase : k = MAX_RETRIES
    · subst hcase
      rw [runLoop, if_neg (by simp), tick_exhaust h n d p rs hres hrs]
      dsimp only
      rw [if_pos rfl, runLoop_no_timer h fuel (n + 1) (w + 1) _ rfl]
      have h1 : n + (11 - MAX_RETRIES) = n + 1 := by omega
      rw [h1]
    · have hklt : k < MAX_RETRIES := by omega
      rw [runLoop, if_neg (by simp), tick_retry h n d k p rs hklt hres hrs]
      dsimp only
      rw [if_neg (by simp)]
      rw [ih (k + 1) DEFAULT_RETRY_MS (n + 1) (w + 0) (by omega) (by omega) p]
      have h2 : n + 1 + (11 - (k + 1)) = n + (11 - k) := by omega
      rw [h2, Nat.add_zero]

theorem enqueue_not_blank_not_full (t key : String) (s : SystemEventsState)
    (hk : isBlankSessionKey key = false)
    (hlen : (s.queues key).length < SYSTEM_EVENTS_CAPACITY) :
    enqueueSystemEvent t key s =
      .ok { state := { queues := fun k =>
              if k = key then s.queues key ++ [t] else s.queues k },
            overflowWarning := none } := by
  simp [enqueueSystemEvent, hk, Nat.not_le.mpr hlen]

theorem enqueue_not_blank_full (t key : String) (s : SystemEventsState)
    (hk : isBlankSessionKey key = false)
    (hlen : SYSTEM_EVENTS_CAPACITY ≤ (s.queues key).length) :
    enqueueSystemEvent t key s =
      .ok { state := { queues := fun k =>
              if k = key then (s.queues key).drop 1 ++ [t] else s.queues k },
            overflowWarning := some key } := by
  simp [enqueueSystemEvent, hk, hlen]

theorem enqueueAll_le_capacity (key : String) (hk : isBlankSessionKey key = false) :
    ∀ (texts : List String) (s : SystemEventsState),
    (s.queues key).length + texts.length ≤ SYSTEM_EVENTS_CAPACITY →
    ∃ s2, enqueueAll key texts s = .ok (s2, []) ∧
      s2.queues key = s.queues key ++ texts := by
  intro texts
  induction texts with
  | nil => intro s hle; exact ⟨s, rfl, by simp⟩
  | cons t rest ih =>
    intro s hle
    have hlt : (s.queues key).length < SYSTEM_EVENTS_CAPACITY := by
      simp only [List.length_cons] at hle; omega
    have henq := enqueue_not_blank_not_full t key s hk hlt
    obtain ⟨s2, h1, h2⟩ := ih { queues := fun k =>
        if k = key then s.queues key ++ [t] else s.queues k }
      (by simp only [List.length_cons] at hle; simp; omega)
    refine ⟨s2, ?_, ?_⟩
    · rw [enqueueAll]
      simp only [henq, h1]
      simp
    · rw [h2]; simp

theorem enqueueAll_snoc (key t : String) :
    ∀ (xs : List String) (s s1 : SystemEventsState) (w1 : List String),
    enqueueAll key xs s = .ok (s1, w1) →
    enqueueAll key (xs ++ [t]) s =
      (match enqueueSystemEvent t key s1 with
       | .error e => .error e
       | .ok r => .ok (r.state, w1 ++ r.overflowWarning.toList)) := by
  intro xs
  induction xs with
  | nil =>
    intro s s1 w1 hxs
    simp only [enqueueAll, Except.ok.injEq, Prod.mk.injEq] at hxs
    obtain ⟨h1, h2⟩ := hxs
    subst h1
    subst h2
    simp only [List.nil_append, enqueueAll]
    cases henq : enqueueSystemEvent t key s with
    | error e => rfl
    | ok r => simp [enqueueAll]
  | cons u rest ih =>
    intro s s1 w1 hxs
    rw [enqueueAll] at hxs
    cases henq : enqueueSystemEvent u key s with
    | error e => simp only [henq] at hxs; exact absurd hxs (by simp)
    | ok r =>
      simp only [henq] at hxs
      cases hrest : enqueueAll key rest r.state with
      | error e => simp only [hrest] at hxs; exact absurd hxs (by simp)
      | ok pr =>
        obtain ⟨s2, w2⟩ := pr
        simp only [hrest, Except.ok.injEq, Prod.mk.injEq] at hxs
        obtain ⟨hs2, hw⟩ := hxs
        subst hs2
        have hmain := ih r.state s2 w2 hrest
        rw [List.cons_append, enqueueAll]
        simp only [henq, hmain]
        cases hfin : enqueueSystemEvent t key s2 with
        | error e => simp only [hfin]
        | ok rf => simp only [hfin]; simp [← hw, List.append_assoc]

/-- C1 counterexample: at a concrete mid-run state (retryCount 0, below the
maximum), a handler completion with result `{status: "failed"}` does NOT
increment `retryCount`, does NOT restore `pendingReason`, and arms NO retry
timer — while the same completion with a non-`disabled` `skipped` result
does all three.  The claim that `failed` is treated identically to a
non-`disabled` `skipped` result is therefore false: a resolved `failed`
result falls into the `else` branch of the callback (only a non-`disabled`
`skipped` result or a thrown rejection takes the retry path). -/
theorem C1_failed_result_counterexample :
    (completeRun 250 (some "hook:wake") (.ok (.failed "llm-error"))
        { handler := true, pendingReason := none, scheduled := false,
          running := true, timer := none, retryCount := 0 }) =
      ({ handler := true, pendingReason := none, scheduled := false,
         running := false, timer := none, retryCount := 0 }, false) ∧
    (completeRun 250 (some "hook:wake") (.ok (.skipped "llm-error"))
        { handler := true, pendingReason := none, scheduled := false,
          running := true, timer := none, retryCount := 0 }) =
      ({ handler := true, pendingReason := some "hook:wake", scheduled := false,
         running := false, timer := some 1000, retryCount := 1 }, false) := by
  decide

/-- C1 (amended): a handler completion whose result has kind `failed` (any
reason string) is treated by the scheduler exactly like a `ran` result: the
`else` branch resets `retryCount` to 0, emits no warning, and arms no retry
timer; only a non-`disabled` `skipped` result or a thrown rejection is
retry-eligible. -/
theorem C1_failed_treated_as_ran (cms : Nat) (reason : Option String)
    (fr : String) (d : Nat) (s : WakeState) :
    completeRun cms reason (.ok (.failed fr)) s =
      completeRun cms reason (.ok (.ran d)) s ∧
    (completeRun cms reason (.ok (.failed fr)) s).1.retryCount = 0 ∧
    (completeRun cms reason (.ok (.failed fr)) s).2 = false := by
  refine ⟨rfl, ?_, rfl⟩
  simp [completeRun, isTransientSkip, apply_ite WakeState.retryCount]

/-- C4: a handler completion `skipped/"disabled"` is permanent: whatever
the current `retryCount`, it is reset to 0, no timer is armed, no warning
is emitted, and (absent an interleaved wake request or re-arm flag) no
pending wake remains, so no further invocation occurs without a new
external wake request. -/
theorem C4_disabled_skip_permanent (cms : Nat) (reason : Option String)
    (s : WakeState) (hp : s.pendingReason = none) (hs : s.scheduled = false)
    (ht : s.timer = none) :
    (completeRun cms reason (.ok (.skipped "disabled")) s).1.retryCount = 0 ∧
    (completeRun cms reason (.ok (.skipped "disabled")) s).1.timer = none ∧
    (completeRun cms reason (.ok (.skipped "disabled")) s).1.running = false ∧
    hasPendingHeartbeatWake (completeRun cms reason (.ok (.skipped "disabled")) s).1
      = false ∧
    (completeRun cms reason (.ok (.skipped "disabled")) s).2 = false := by
  simp [completeRun, isTransientSkip, hasPendingHeartbeatWake, hp, hs, ht]

/-- C4 witness: the permanent skip at retryCount 7. -/
theorem C4_disabled_skip_permanent_witness :
    (completeRun 250 (some "hook:wake") (.ok (.skipped "disabled"))
        { handler := true, pendingReason := none, scheduled := false,
          running := true, timer := none, retryCount := 7 }).1.retryCount = 0 ∧
    (completeRun 250 (some "hook:wake") (.ok (.skipped "disabled"))
        { handler := true, pendingReason := none, scheduled := false,
          running := true, timer := none, retryCount := 7 }).1.timer = none ∧
    (completeRun 250 (some "hook:wake") (.ok (.skipped "disabled"))
        { handler := true, pendingReason := none, scheduled := false,
          running := true, timer := none, retryCount := 7 }).1.running = false ∧
    hasPendingHeartbeatWake (completeRun 250 (some "hook:wake")
        (.ok (.skipped "disabled"))
        { handler := true, pendingReason := none, scheduled := false,
          running := true, timer := none, retryCount := 7 }).1 = false ∧
    (completeRun 250 (some "hook:wake") (.ok (.skipped "disabled"))
        { handler := true, pendingReason := none, scheduled := false,
          running := true, timer := none, retryCount := 7 }).2 = false :=
  C4_disabled_skip_permanent 250 (some "hook:wake") _ rfl rfl rfl

/-- C9: if the completing invocation (captured reason `r1`) ends as a
transient skip or a thrown rejection with `retryCount` below the maximum,
the retry path unconditionally overwrites `pendingReason` with `r1` (or the
marker `"retry"` when `r1` was absent) — whatever `pendingReason` an
interleaved `requestHeartbeatNow` wrote during the run (it is part of the
arbitrary state `s`) is discarded. -/
theorem C9_retry_overwrites_pending (cms : Nat) (r1 : Option String)
    (rs : String) (s : WakeState) (hrs : rs ≠ "disabled")
    (hrc : s.retryCount < MAX_RETRIES) :
    (completeRun cms r1 (.ok (.skipped rs)) s).1.pendingReason
      = some (r1.getD "retry") ∧
    (completeRun cms r1 (.error ()) s).1.pendingReason
      = some (r1.getD "retry") := by
  have hnle : ¬ MAX_RETRIES ≤ s.retryCount := Nat.not_le.mpr hrc
  constructor <;>
    simp [completeRun, isTransientSkip, retryOrGiveUp, hrs, hnle]

/-- C9 witness: a fresh reason "r2" recorded during the run is replaced by
the captured reason "r1" on the retry path. -/
theorem C9_retry_overwrites_pending_witness :
    (completeRun 250 (some "r1") (.ok (.skipped "requests-in-flight"))
        { handler := true, pendingReason := some "r2", scheduled := false,
          running := true, timer := none, retryCount := 0 }).1.pendingReason
      = some "r1" ∧
    (completeRun 250 (some "r1") (.error ())
        { handler := true, pendingReason := some "r2", scheduled := false,
          running := true, timer := none, retryCount := 0 }).1.pendingReason
      = some "r1" :=
  C9_retry_overwrites_pending 250 (some "r1") "requests-in-flight" _
    (by decide) (by decide)

/-- C10: `hasPendingHeartbeatWake` does not observe the `running` flag: it
is false whenever `pendingReason` is absent, no timer is armed, and no
re-arm was requested (even mid-invocation), it is true exactly when one of
those three holds, and toggling `running` never changes its value. -/
theorem C10_pending_observation (s : WakeState) :
    (s.pendingReason = none → s.timer = none → s.scheduled = false →
      hasPendingHeartbeatWake s = false) ∧
    (hasPendingHeartbeatWake s = true ↔
      (s.pendingReason ≠ none ∨ s.timer ≠ none ∨ s.scheduled = true)) ∧
    hasPendingHeartbeatWake { s with running := true } =
      hasPendingHeartbeatWake { s with running := false } := by
  refine ⟨?_, ?_, rfl⟩
  · intro h1 h2 h3
    simp [hasPendingHeartbeatWake, h1, h2, h3]
  · simp [hasPendingHeartbeatWake, Bool.or_eq_true, Option.isSome_iff_ne_none,
      or_assoc]

/-- C10 witness: mid-invocation with nothing pending, the observer returns
false. -/
theorem C10_pending_observation_witness :
    hasPendingHeartbeatWake
      { handler := true, pendingReason := none, scheduled := false,
        running := true, timer := none, retryCount := 3 } = false :=
  (C10_pending_observation
    { handler := true, pendingReason := none, scheduled := false,
      running := true, timer := none, retryCount := 3 }).1 rfl rfl rfl

/-- C2: whenever the handler resolves every invocation with a `skipped`
result whose reason is not `"disabled"`, a single wake request (after a
handler registration) drives the sequential event loop through exactly 11
handler invocations — 1 initial plus 10 retries — with exactly one
exhaustion warning, emitted on the 11th completion (when `retryCount` has
reached the maximum of 10), after which `retryCount` is 0 and no timer,
pending reason, or re-arm flag remains: silence until a new request. -/
theorem C2_retry_exhaustion
    (h : Nat → Option String → Except Unit HeartbeatRunResult)
    (hh : ∀ n r, ∃ rs, h n r = .ok (.skipped rs) ∧ rs ≠ "disabled") :
    runLoop h 20 (requestHeartbeatNow (some "hook:wake") none
        (setHeartbeatWakeHandler true initialWakeState)) 0 0 =
      ({ handler := true, pendingReason := none, scheduled := false,
         running := false, timer := none, retryCount := 0 }, 11, 1) := by
  have hstart : requestHeartbeatNow (some "hook:wake") none
      (setHeartbeatWakeHandler true initialWakeState) =
      { handler := true, pendingReason := some "hook:wake", scheduled := false,
        running := false, timer := some DEFAULT_COALESCE_MS, retryCount := 0 } := rfl
  rw [hstart]
  have hmain := runLoop_skip_all h hh 20 0 DEFAULT_COALESCE_MS 0 0
    (Nat.zero_le _) (by omega) "hook:wake"
  simpa using hmain

/-- C2 witness: the always-`skipped/"requests-in-flight"` handler of the
`stops after MAX_RETRIES (10)` test. -/
theorem C2_retry_exhaustion_witness :
    runLoop alwaysSkipBusy 20 (requestHeartbeatNow (some "hook:wake") none
        (setHeartbeatWakeHandler true initialWakeState)) 0 0 =
      ({ handler := true, pendingReason := none, scheduled := false,
         running := false, timer := none, retryCount := 0 }, 11, 1) :=
  C2_retry_exhaustion alwaysSkipBusy
    (fun _ _ => ⟨"requests-in-flight", rfl, by decide⟩)

/-- C3: any burst of `requestHeartbeatNow` calls issued while a timer is
already armed leaves the timer handle (and its delay), the handler, the
`scheduled` and `running` flags, and `retryCount` all unchanged — each call
only rewrites `pendingReason` — and when that single timer then fires with
a handler registered and no run in flight, exactly one handler invocation
starts and the timer slot is cleared: one invocation per coalescing
window. -/
theorem C3_coalescing_window (reqs : List (Option String × Option Nat))
    (s : WakeState) (ht : s.timer ≠ none) :
    (applyRequests reqs s).timer = s.timer ∧
    (applyRequests reqs s).handler = s.handler ∧
    (applyRequests reqs s).scheduled = s.scheduled ∧
    (applyRequests reqs s).running = s.running ∧
    (applyRequests reqs s).retryCount = s.retryCount ∧
    (∀ d, s.handler = true → s.running = false →
      (fireTimer d (applyRequests reqs s)).startsRun = true ∧
      (fireTimer d (applyRequests reqs s)).state.timer = none ∧
      (fireTimer d (applyRequests reqs s)).state.running = true) := by
  have main : ∀ (rs : List (Option String × Option Nat)) (u : WakeState),
      u.timer ≠ none →
      (applyRequests rs u).timer = u.timer ∧
      (applyRequests rs u).handler = u.handler ∧
      (applyRequests rs u).scheduled = u.scheduled ∧
      (applyRequests rs u).running = u.running ∧
      (applyRequests rs u).retryCount = u.retryCount := by
    intro rs
    induction rs with
    | nil => intro u hu; simp [applyRequests]
    | cons r rest ih =>
      intro u hu
      have hstep : applyRequests (r :: rest) u =
          applyRequests rest (requestHeartbeatNow r.1 r.2 u) := rfl
      rw [hstep, requestHeartbeatNow_of_timer_some r.1 r.2 u hu]
      exact ih { u with pendingReason := some ((r.1.orElse (fun _ => u.pendingReason)).getD "requested") } hu
  obtain ⟨h1, h2, h3, h4, h5⟩ := main reqs s ht
  refine ⟨h1, h2, h3, h4, h5, ?_⟩
  intro d hh hr
  have hh' : (applyRequests reqs s).handler = true := by rw [h2]; exact hh
  have hr' : (applyRequests reqs s).running = false := by rw [h4]; exact hr
  simp [fireTimer, FireOutcome.startsRun, FireOutcome.state, hh', hr']

/-- C3 witness: two coalesced requests on a state with an armed 250 ms
timer. -/
theorem C3_coalescing_window_witness :
    (applyRequests [(some "b", none), (none, some 999)]
      { handler := true, pendingReason := some "a", scheduled := false,
        running := false, timer := some 250, retryCount := 0 }).timer = some 250 ∧
    (applyRequests [(some "b", none), (none, some 999)]
      { handler := true, pendingReason := some "a", scheduled := false,
        running := false, timer := some 250, retryCount := 0 }).handler = true ∧
    (applyRequests [(some "b", none), (none, some 999)]
      { handler := true, pendingReason := some "a", scheduled := false,
        running := false, timer := some 250, retryCount := 0 }).scheduled = false ∧
    (applyRequests [(some "b", none), (none, some 999)]
      { handler := true, pendingReason := some "a", scheduled := false,
        running := false, timer := some 250, retryCount := 0 }).running = false ∧
    (applyRequests [(some "b", none), (none, some 999)]
      { handler := true, pendingReason := some "a", scheduled := false,
        running := false, timer := some 250, retryCount := 0 }).retryCount = 0 ∧
    (∀ d, true = true → false = false →
      (fireTimer d (applyRequests [(some "b", none), (none, some 999)]
        { handler := true, pendingReason := some "a", scheduled := false,
          running := false, timer := some 250, retryCount := 0 })).startsRun = true ∧
      (fireTimer d (applyRequests [(some "b", none), (none, some 999)]
        { handler := true, pendingReason := some "a", scheduled := false,
          running := false, timer := some 250, retryCount := 0 })).state.timer = none ∧
      (fireTimer d (applyRequests [(some "b", none), (none, some 999)]
        { handler := true, pendingReason := some "a", scheduled := false,
          running := false, timer := some 250, retryCount := 0 })).state.running = true) :=
  C3_coalescing_window [(some "b", none), (none, some 999)]
    { handler := true, pendingReason := some "a", scheduled := false,
      running := false, timer := some 250, retryCount := 0 } (by decide)

/-- C5: the scheduler state invariants hold initially and are preserved by
every operation.  `retryCount ≤ MAX_RETRIES` is preserved by
`requestHeartbeatNow`, `setHeartbeatWakeHandler`, the timer-fire prefix,
handler completion, and the test reset; the at-most-one-timer discipline is
the fact that `schedule` never arms (or replaces) a timer while one is
outstanding — the single `timer` slot is only ever filled when empty. -/
theorem C5_state_invariants :
    initialWakeState.retryCount ≤ MAX_RETRIES ∧
    (∀ d s, s.timer ≠ none → schedule d s = s) ∧
    (∀ r c s, s.retryCount ≤ MAX_RETRIES →
      (requestHeartbeatNow r c s).retryCount ≤ MAX_RETRIES) ∧
    (∀ b s, s.retryCount ≤ MAX_RETRIES →
      (setHeartbeatWakeHandler b s).retryCount ≤ MAX_RETRIES) ∧
    (∀ d s, s.retryCount ≤ MAX_RETRIES →
      (fireTimer d s).state.retryCount ≤ MAX_RETRIES) ∧
    (∀ cms r res s, s.retryCount ≤ MAX_RETRIES →
      (completeRun cms r res s).1.retryCount ≤ MAX_RETRIES) ∧
    resetHeartbeatWakeForTest.retryCount ≤ MAX_RETRIES := by
  refine ⟨by decide, schedule_of_timer_some, ?_, ?_, ?_, ?_, by decide⟩
  · intro r c s hs
    simpa [requestHeartbeatNow] using hs
  · intro b s hs
    simp only [setHeartbeatWakeHandler]
    split
    · simpa using hs
    · exact hs
  · intro d s hs
    rw [fireTimer_retryCount]
    exact hs
  · intro cms r res s hs
    exact completeRun_retryCount_le cms r res s hs

/-- C5 witness: the invariants evaluated at concrete operations from the
initial state. -/
theorem C5_state_invariants_witness :
    (requestHeartbeatNow (some "hook:wake") none initialWakeState).retryCount
      ≤ MAX_RETRIES ∧
    (completeRun 250 none (.error ()) initialWakeState).1.retryCount
      ≤ MAX_RETRIES ∧
    schedule 250 { initialWakeState with timer := some 99 } =
      { initialWakeState with timer := some 99 } :=
  ⟨C5_state_invariants.2.2.1 (some "hook:wake") none initialWakeState
      (by decide),
   C5_state_invariants.2.2.2.2.2.1 250 none (.error ()) initialWakeState
      (by decide),
   C5_state_invariants.2.1 250 { initialWakeState with timer := some 99 }
      (by decide)⟩

/-- C6: cross-session isolation (modelled from the spec, the queue module
itself not being among the sources): for keys `K2 ≠ K`, enqueuing under `K`
changes neither what `peek` nor what the drain operation returns for `K2`;
draining `K` returns exactly `K`'s queued events in arrival order, leaves
`K`'s buffer empty, and leaves `K2`'s buffer untouched. -/
theorem C6_session_isolation (K K2 text : String) (s : SystemEventsState)
    (hne : K2 ≠ K) :
    peekSystemEvents K2 (enqueueState text K s) = peekSystemEvents K2 s ∧
    (drainSystemEvents K2 (enqueueState text K s)).1
      = (drainSystemEvents K2 s).1 ∧
    (drainSystemEvents K s).1 = peekSystemEvents K s ∧
    peekSystemEvents K (drainSystemEvents K s).2 = [] ∧
    peekSystemEvents K2 (drainSystemEvents K s).2 = peekSystemEvents K2 s := by
  by_cases hb : isBlankSessionKey K = true
  · simp [enqueueState, enqueueSystemEvent, peekSystemEvents,
      drainSystemEvents, hb, hne]
  · by_cases hcap : SYSTEM_EVENTS_CAPACITY ≤ (s.queues K).length
    · simp [enqueueState, enqueueSystemEvent, peekSystemEvents,
        drainSystemEvents, hb, hcap, hne]
    · simp [enqueueState, enqueueSystemEvent, peekSystemEvents,
        drainSystemEvents, hb, hcap, hne]

/-- C6 witness: a channel-scoped event is invisible to the main key. -/
theorem C6_session_isolation_witness :
    peekSystemEvents "main"
        (enqueueState "Discord reaction added" "discord:group:123"
          emptySystemEvents)
      = peekSystemEvents "main" emptySystemEvents ∧
    (drainSystemEvents "main"
        (enqueueState "Discord reaction added" "discord:group:123"
          emptySystemEvents)).1
      = (drainSystemEvents "main" emptySystemEvents).1 ∧
    (drainSystemEvents "discord:group:123" emptySystemEvents).1
      = peekSystemEvents "discord:group:123" emptySystemEvents ∧
    peekSystemEvents "discord:group:123"
        (drainSystemEvents "discord:group:123" emptySystemEvents).2 = [] ∧
    peekSystemEvents "main"
        (drainSystemEvents "discord:group:123" emptySystemEvents).2
      = peekSystemEvents "main" emptySystemEvents :=
  C6_session_isolation "discord:group:123" "main" "Discord reaction added"
    emptySystemEvents (by decide)

/-- C7: bounded overflow (modelled from the spec): under any non-blank key,
enqueuing the first 20 events from the empty state emits no overflow
observation and retains all 20 in arrival order; the 21st enqueue evicts
the oldest event, retains the most recent 20 in arrival order, and emits
exactly one overflow observation carrying that session key. -/
theorem C7_overflow_evicts_oldest (key : String) (ts : List String)
    (t : String) (hk : isBlankSessionKey key = false)
    (hlen : ts.length = SYSTEM_EVENTS_CAPACITY) :
    (∃ s1, enqueueAll key ts emptySystemEvents = .ok (s1, []) ∧
       peekSystemEvents key s1 = ts) ∧
    (∃ s2, enqueueAll key (ts ++ [t]) emptySystemEvents = .ok (s2, [key]) ∧
       peekSystemEvents key s2 = ts.drop 1 ++ [t]) := by
  obtain ⟨s1, h1, h2⟩ := enqueueAll_le_capacity key hk ts emptySystemEvents
    (by simp [emptySystemEvents, hlen])
  have h2' : s1.queues key = ts := by
    simpa [emptySystemEvents] using h2
  constructor
  · exact ⟨s1, h1, h2'⟩
  · have hfull : SYSTEM_EVENTS_CAPACITY ≤ (s1.queues key).length := by
      rw [h2', hlen]
    have hsenq := enqueue_not_blank_full t key s1 hk hfull
    rw [enqueueAll_snoc key t ts emptySystemEvents s1 [] h1]
    simp only [hsenq]
    refine ⟨{ queues := fun k =>
        if k = key then (s1.queues key).drop 1 ++ [t] else s1.queues k },
      ?_, ?_⟩
    · simp
    · simp [peekSystemEvents, h2']

/-- C7 witness: 20 distinct events then a 21st under the key of the
overflow test. -/
theorem C7_overflow_evicts_oldest_witness :
    (∃ s1, enqueueAll "overflow-test"
        ((List.range SYSTEM_EVENTS_CAPACITY).map toString) emptySystemEvents
        = .ok (s1, []) ∧
       peekSystemEvents "overflow-test" s1
        = (List.range SYSTEM_EVENTS_CAPACITY).map toString) ∧
    (∃ s2, enqueueAll "overflow-test"
        ((List.range SYSTEM_EVENTS_CAPACITY).map toString ++ ["event 21"])
        emptySystemEvents = .ok (s2, ["overflow-test"]) ∧
       peekSystemEvents "overflow-test" s2
        = ((List.range SYSTEM_EVENTS_CAPACITY).map toString).drop 1
          ++ ["event 21"]) :=
  C7_overflow_evicts_oldest "overflow-test"
    ((List.range SYSTEM_EVENTS_CAPACITY).map toString) "event 21"
    (by decide) (by simp)

/-- C8: blank-key rejection (modelled from the spec): enqueuing under a
whitespace-only session key fails synchronously with the argument-
validation error, whose message mentions the session key, and the queue
state is left completely unmodified. -/
theorem C8_blank_key_rejected (text sessionKey : String)
    (s : SystemEventsState) (hb : isBlankSessionKey sessionKey = true) :
    enqueueSystemEvent text sessionKey s = .error blankSessionKeyMessage ∧
    (∃ pre post, blankSessionKeyMessage = pre ++ "sessionKey" ++ post) ∧
    enqueueState text sessionKey s = s := by
  refine ⟨by simp [enqueueSystemEvent, hb],
    ⟨"enqueueSystemEvent: ", " must not be blank", by decide⟩,
    by simp [enqueueState, enqueueSystemEvent, hb]⟩

/-- C8 witness: the single-space key of the `requires an explicit session
key` test. -/
theorem C8_blank_key_rejected_witness :
    enqueueSystemEvent "Node: Mac Studio" " " emptySystemEvents
      = .error blankSessionKeyMessage ∧
    (∃ pre post, blankSessionKeyMessage = pre ++ "sessionKey" ++ post) ∧
    enqueueState "Node: Mac Studio" " " emptySystemEvents
      = emptySystemEvents :=
  C8_blank_key_rejected "Node: Mac Studio" " " emptySystemEvents (by decide)
